import Mathlib

/-!
Verification development for the CosyVoice TTS engine
(`packages/backend/src/tts/engines/cosyVoice.ts`).

The `synthesize` method is modelled as an event-step machine: the session
configuration (`Session`) is fixed per call, the mutable closure state
(`audioChunks`) is `SState`, and every externally observable effect of a
handler (logging, sending a command over the socket, closing the socket,
writing/ending/destroying the file stream, writing/ending/erroring the
output `PassThrough` stream, and resolving/rejecting the promise) is an
`Action` recorded in an ordered trace.  The WebSocket callbacks
(`open`, `message` with binary or text frames, `error`) are the events.
Since the JS event loop runs each callback to completion, a session run is
a fold of the step function over the event list, prefixed by the actions
the code performs synchronously before any callback (eager file-stream
creation and the early `resolve(outputStream)` in stream mode).
-/

namespace CosyVoice

/-- An audio payload chunk: a byte sequence. -/
abbrev Chunk := List Nat

/-- The recognized option bag of `synthesize` (TypeScript `TtsOptions`
fields used by this engine).  A `none` field models an absent property,
for which the destructuring defaults of lines 21-30 apply. -/
structure TtsOptions where
  voice : Option String := none
  format : Option String := none
  speed : Option ℚ := none
  volume : Option ℚ := none
  pitch : Option ℚ := none
  stream : Option Bool := none
  outputType : Option String := none
  output : Option String := none
deriving DecidableEq, Repr

/-- Line 34: `Math.max(0.5, Math.min(2.0, speed))`. -/
def cosySpeed (speed : ℚ) : ℚ := max 0.5 (min 2 speed)

/-- Line 38: `Math.round(Math.max(0, Math.min(100, volume * 100))) || 50`.
The `|| 50` replaces a falsy result; for the (integer) rounded clamp the
only falsy value reachable in the rational model is `0`. -/
def cosyVolume (volume : ℚ) : ℤ :=
  if round (max 0 (min 100 (volume * 100))) = 0 then 50
  else round (max 0 (min 100 (volume * 100)))

/-- Line 43: the pitch sent to the remote is the constant `1.0`,
whatever `options.pitch` was. -/
def cosyPitch : ℚ := 1

/-- JavaScript `String.prototype.replace` with a string pattern: remove
the first occurrence of `pat` (the code never supplies a replacement
text other than the empty string). -/
def replaceFirst (pat : List Char) : List Char → List Char
  | [] => []
  | c :: rest =>
    if pat.isPrefixOf (c :: rest) then (c :: rest).drop pat.length
    else c :: replaceFirst pat rest

/-- Line 77: `voice.replace('zh-CN-', '')`. -/
def mapVoice (v : String) : String :=
  String.mk (replaceFirst "zh-CN-".toList v.toList)

/-- Line 78: `format === 'mp3' ? 'mp3' : 'wav'`. -/
def mapFormat (f : String) : String := if f = "mp3" then "mp3" else "wav"

/-- The `parameters` object of the run-task command (lines 75-83). -/
structure TaskParameters where
  text_type : String
  voice : String
  format : String
  sample_rate : ℕ
  volume : ℤ
  rate : ℚ
  pitch : ℚ
deriving DecidableEq, Repr

/-- The `payload` object of the run-task command (lines 70-85);
`input` is always the empty object and is omitted. -/
structure RunTaskPayload where
  task_group : String
  task : String
  function : String
  model : String
  parameters : TaskParameters
deriving DecidableEq, Repr

/-- Builds the run-task payload from the options, applying the
destructuring defaults of lines 21-30 and the mappings of lines 32-43. -/
def runTaskPayload (o : TtsOptions) : RunTaskPayload :=
  { task_group := "audio"
    task := "tts"
    function := "SpeechSynthesizer"
    model := "cosyvoice-v3-plus"
    parameters :=
      { text_type := "PlainText"
        voice := mapVoice (o.voice.getD "longwan")
        format := mapFormat (o.format.getD "mp3")
        sample_rate := 22050
        volume := cosyVolume (o.volume.getD 1)
        rate := cosySpeed (o.speed.getD 1)
        pitch := cosyPitch } }

/-- The `header` object of every outbound command. -/
structure CmdHeader where
  action : String
  task_id : String
  streaming : String
deriving DecidableEq, Repr

/-- Header with `streaming: 'duplex'` as in all three commands. -/
def mkHeader (action taskId : String) : CmdHeader :=
  ⟨action, taskId, "duplex"⟩

/-- The three outbound command shapes (lines 64-86, 113-124, 131-140). -/
inductive SentMsg
  | runTask (header : CmdHeader) (payload : RunTaskPayload)
  | continueTask (header : CmdHeader) (text : String)
  | finishTask (header : CmdHeader)
deriving DecidableEq, Repr

/-- Every externally observable effect a handler can perform. -/
inductive Action
  | logInfo
  | logError
  | fileOpen (path : String)
  | send (m : SentMsg)
  | wsClose
  | fileWrite (chunk : Chunk)
  | fileEnd
  | fileDestroy (msg : String)
  | streamWrite (chunk : Chunk)
  | streamEnd
  | streamError (msg : String)
  | resolveStream
  | resolveBuffer (bytes : Chunk)
  | resolveEmpty
  | reject (msg : String)
deriving DecidableEq, Repr

/-- Inbound transport events.  A text frame that parses to an object with
a `header.event` string is `ctrl` (with the optional `error_message`);
a text frame whose parsing or field access throws is `malformed`. -/
inductive WsEvent
  | wsOpen
  | binary (chunk : Chunk)
  | ctrl (event : String) (taskId : Option String) (errorMessage : Option String)
  | malformed
  | wsError (msg : String)
deriving DecidableEq, Repr

/-- JavaScript truthiness of an optional string: absent or empty is falsy. -/
def truthyStr : Option String → Bool
  | none => false
  | some s => !(s == "")

/-- Line 49: a file stream exists iff `outputType === 'file' && output`. -/
def fileActive (o : TtsOptions) : Bool :=
  (o.outputType == some "file") && truthyStr o.output

/-- The destructured `stream` flag (default `false`). -/
def streamOn (o : TtsOptions) : Bool := o.stream.getD false

/-- One `synthesize` call: its option bag, the generated task id
(a random UUID with hyphens removed, modelled as an input), and the text. -/
structure Session where
  cfg : TtsOptions
  taskId : String
  text : String
deriving DecidableEq, Repr

/-- The mutable closure state: the `audioChunks` accumulator. -/
structure SState where
  audioChunks : List Chunk
deriving DecidableEq, Repr

/-- Initial closure state (`audioChunks = []`). -/
def initState : SState := ⟨[]⟩

/-- Line 162: `msg.header.error_message || 'CosyVoice task failed'` —
the JS `||` falls back on any falsy value, so also on the empty string. -/
def errMsgOf : Option String → String
  | some s => if s = "" then "CosyVoice task failed" else s
  | none => "CosyVoice task failed"

/-- The sink-failure dispatch shared verbatim by the `task-failed` branch
(lines 168-175) and the `error` handler (lines 185-192). -/
def failActions (o : TtsOptions) (m : String) : List Action :=
  if fileActive o then [.fileDestroy m, .reject m]
  else if streamOn o then [.streamError m]
  else [.reject m]

/-- One transport callback run to completion: returns the new closure
state and the ordered list of effects the handler performed. -/
def stepEvent (sess : Session) (s : SState) : WsEvent → SState × List Action
  | .wsOpen =>
    (s, [.logInfo, .send (.runTask (mkHeader "run-task" sess.taskId) (runTaskPayload sess.cfg))])
  | .binary c =>
    if fileActive sess.cfg then (s, [.fileWrite c])
    else if streamOn sess.cfg then (s, [.streamWrite c])
    else ({ s with audioChunks := s.audioChunks ++ [c] }, [])
  | .ctrl ev _tid errorMessage =>
    if ev = "task-started" then
      (s, [.logInfo, .logInfo,
           .send (.continueTask (mkHeader "continue-task" sess.taskId) sess.text),
           .logInfo,
           .send (.finishTask (mkHeader "finish-task" sess.taskId))])
    else if ev = "result-generated" then (s, [.logInfo, .logInfo])
    else if ev = "task-finished" then
      (s, [.logInfo, .logInfo, .wsClose] ++
          (if fileActive sess.cfg then [.fileEnd, .resolveEmpty]
           else if streamOn sess.cfg then [.streamEnd]
           else [.resolveBuffer s.audioChunks.flatten]))
    else if ev = "task-failed" then
      (s, [.logInfo, .wsClose, .logError] ++ failActions sess.cfg (errMsgOf errorMessage))
    else (s, [.logInfo])
  | .malformed => (s, [.logError])
  | .wsError m => (s, [.logError] ++ failActions sess.cfg m)

/-- Actions performed synchronously before any callback: the eager
`createWriteStream` (lines 49-51) and, in stream mode without a file
sink, the immediate `resolve(outputStream)` (lines 195-197). -/
def initActions (sess : Session) : List Action :=
  (if fileActive sess.cfg then [.fileOpen (sess.cfg.output.getD "")] else []) ++
  (if streamOn sess.cfg && !fileActive sess.cfg then [.resolveStream] else [])

/-- Folds the handlers over an event list, concatenating the traces. -/
def processEvents (sess : Session) (s : SState) : List WsEvent → SState × List Action
  | [] => (s, [])
  | e :: rest =>
    ((processEvents sess (stepEvent sess s e).1 rest).1,
     (stepEvent sess s e).2 ++ (processEvents sess (stepEvent sess s e).1 rest).2)

/-- A whole session run: synchronous prefix, then the event fold. -/
def run (sess : Session) (events : List WsEvent) : SState × List Action :=
  ((processEvents sess initState events).1,
   initActions sess ++ (processEvents sess initState events).2)

/-- The five finalization outcomes of the specification: resolve with the
concatenated buffer, resolve with the empty buffer (file mode), stream
end, stream error, promise rejection. -/
def isFinalization : Action → Bool
  | .resolveBuffer _ => true
  | .resolveEmpty => true
  | .streamEnd => true
  | .streamError _ => true
  | .reject _ => true
  | _ => false

/-- Terminal triggers: the two terminal control events and a transport
error. -/
def isTerminal : WsEvent → Bool
  | .ctrl ev _ _ => ev == "task-finished" || ev == "task-failed"
  | .wsError _ => true
  | _ => false

/-- Number of finalization calls in a trace. -/
def countFin (t : List Action) : ℕ := t.countP isFinalization

/-- Number of terminal triggers in an event list. -/
def countTerminal (es : List WsEvent) : ℕ := es.countP isTerminal

/-- Actions touching the file handle. -/
def isFileAction : Action → Bool
  | .fileOpen _ => true
  | .fileWrite _ => true
  | .fileEnd => true
  | .fileDestroy _ => true
  | _ => false

/-! ## Helper lemmas -/

/-- Processing a concatenation of event lists composes the two runs. -/
theorem processEvents_append (sess : Session) (s : SState) (l1 l2 : List WsEvent) :
    processEvents sess s (l1 ++ l2) =
      ((processEvents sess (processEvents sess s l1).1 l2).1,
       (processEvents sess s l1).2 ++
         (processEvents sess (processEvents sess s l1).1 l2).2) := by
  induction l1 generalizing s with
  | nil => simp [processEvents]
  | cons e rest ih => simp [processEvents, ih]

/-- Each handler performs exactly one finalization call when the event is
terminal and none otherwise. -/
theorem countFin_stepEvent (sess : Session) (s : SState) (e : WsEvent) :
    countFin (stepEvent sess s e).2 = if isTerminal e then 1 else 0 := by
  cases e with
  | wsOpen => rfl
  | malformed => rfl
  | binary c =>
    simp only [stepEvent, isTerminal]
    split_ifs <;> first | rfl | contradiction
  | wsError m =>
    simp only [stepEvent, failActions, isTerminal]
    split_ifs <;> rfl
  | ctrl ev tid em =>
    simp only [stepEvent, failActions, isTerminal]
    split_ifs with h1 h2 h3 h4 <;>
      simp_all [countFin, List.countP, List.countP.go, isFinalization]

/-- The synchronous prefix never performs a finalization call. -/
theorem countFin_initActions (sess : Session) :
    countFin (initActions sess) = 0 := by
  simp only [initActions, countFin, List.countP_append]
  split_ifs <;> rfl

/-- Over any event list, finalization calls equal terminal triggers. -/
theorem countFin_processEvents (sess : Session) (s : SState) (es : List WsEvent) :
    countFin (processEvents sess s es).2 = countTerminal es := by
  induction es generalizing s with
  | nil => rfl
  | cons e rest ih =>
    simp only [processEvents, countFin, countTerminal, List.countP_append,
      List.countP_cons]
    have h1 := countFin_stepEvent sess s e
    have h2 := ih (stepEvent sess s e).1
    simp only [countFin, countTerminal] at h1 h2
    rw [h1, h2]
    split_ifs <;> omega

/-- Without an active file sink no handler touches the file handle. -/
theorem stepEvent_no_fileAction (sess : Session)
    (hfa : fileActive sess.cfg = false) (s : SState) (e : WsEvent) :
    ∀ a ∈ (stepEvent sess s e).2, isFileAction a = false := by
  have h : ((stepEvent sess s e).2.all fun a => !isFileAction a) = true := by
    cases e <;> simp only [stepEvent, failActions, hfa] <;>
      first
        | rfl
        | (split_ifs <;> simp_all [isFileAction])
  intro a ha
  have h2 := List.all_eq_true.mp h a ha
  simpa using h2

/-- Without an active file sink a whole run touches no file handle. -/
theorem processEvents_no_fileAction (sess : Session)
    (hfa : fileActive sess.cfg = false) (s : SState) (es : List WsEvent) :
    ∀ a ∈ (processEvents sess s es).2, isFileAction a = false := by
  induction es generalizing s with
  | nil => simp [processEvents]
  | cons e rest ih =>
    intro a ha
    simp only [processEvents, List.mem_append] at ha
    rcases ha with h | h
    · exact stepEvent_no_fileAction sess hfa s e a h
    · exact ih (stepEvent sess s e).1 a h

/-! ## Claim theorems -/

/-- Claim C1, counterexample.  The claim says every session fires exactly
one finalization outcome — never zero and never two.  Both bounds fail:
a buffer-mode session whose events are an open followed by one binary
chunk (no terminal event) fires zero finalizations, and a stream-mode
session receiving `task-failed` and then `task-finished` fires two
(a stream error and then a stream end). -/
theorem c1_counterexample :
    countFin (run ⟨{}, "t", "x"⟩ [.wsOpen, .binary [65]]).2 = 0 ∧
    countFin (run ⟨{ stream := some true }, "t", "x"⟩
        [.wsOpen, .ctrl "task-failed" none none,
         .ctrl "task-finished" none none]).2 = 2 := by
  constructor <;> rfl

/-- Claim C1, amended: the number of finalization calls a session
performs equals the number of terminal triggers (`task-finished`,
`task-failed`, transport error) it receives.  In particular a session
that receives no terminal trigger never finalizes, and every repeated
terminal control frame fires an additional finalization call (in
buffer/file mode the later promise settlements are no-ops only at the
promise layer, outside this code). -/
theorem c1_finalization_count (sess : Session) (events : List WsEvent) :
    countFin (run sess events).2 = countTerminal events := by
  simp only [run, countFin, List.countP_append]
  have h1 := countFin_initActions sess
  have h2 := countFin_processEvents sess initState events
  simp only [countFin, countTerminal] at h1 h2
  rw [h1, h2]
  simp [countTerminal]

/-- Claim C2: with default options (no `stream`, no `outputType`), the
session sends `run-task` with its task id on open; on `task-started` it
sends `continue-task` carrying the exact text and then `finish-task`
with empty input; after binary chunks `AA` and `BB` and a
`task-finished` event, it closes the socket and resolves with the
in-order concatenation `AABB`. -/
theorem c2_default_scenario (text taskId : String) :
    run ⟨{}, taskId, text⟩
        [.wsOpen, .ctrl "task-started" none none, .binary [65, 65],
         .binary [66, 66], .ctrl "task-finished" none none] =
      (⟨[[65, 65], [66, 66]]⟩,
       [.logInfo,
        .send (.runTask (mkHeader "run-task" taskId) (runTaskPayload {})),
        .logInfo, .logInfo,
        .send (.continueTask (mkHeader "continue-task" taskId) text),
        .logInfo,
        .send (.finishTask (mkHeader "finish-task" taskId)),
        .logInfo, .logInfo, .wsClose,
        .resolveBuffer [65, 65, 66, 66]]) := by
  rfl

/-- Claim C3, counterexample.  The claim says that in stream mode the
promise resolves at, and not before, the transport open event.  In the
code `resolve(outputStream)` runs synchronously inside the promise
executor, before the socket has connected: a stream-mode session whose
event list is empty (the connection never opens) has already fired
`resolveStream` in its synchronous prefix. -/
theorem c3_counterexample :
    (run ⟨{ stream := some true }, "t", "x"⟩ []).2 = [Action.resolveStream] := by
  rfl

/-- Claim C3, amended: when `stream` is true and no file sink is active,
`resolveStream` is emitted in the synchronous prefix, before any
transport event (so in particular before open, before every audio byte
and before `task-finished`), and no event handler ever emits it. -/
theorem c3_stream_resolves_first (sess : Session)
    (hs : streamOn sess.cfg = true) (hf : fileActive sess.cfg = false)
    (events : List WsEvent) :
    (run sess events).2 =
      Action.resolveStream :: (processEvents sess initState events).2 ∧
    (∀ (s : SState) (e : WsEvent),
      Action.resolveStream ∉ (stepEvent sess s e).2) := by
  constructor
  · simp [run, initActions, hs, hf]
  · intro s e
    cases e <;> simp only [stepEvent, failActions, hf, hs] <;>
      first
        | (split_ifs <;> simp_all)
        | simp

/-- Witness for the amended C3 at a concrete stream-mode session. -/
theorem c3_witness :
    streamOn ({ stream := some true } : TtsOptions) = true ∧
    fileActive ({ stream := some true } : TtsOptions) = false ∧
    (run ⟨{ stream := some true }, "t", "x"⟩ [.wsOpen]).2 =
      Action.resolveStream ::
        (processEvents ⟨{ stream := some true }, "t", "x"⟩ initState
          [.wsOpen]).2 :=
  ⟨rfl, rfl,
   (c3_stream_resolves_first ⟨{ stream := some true }, "t", "x"⟩ rfl rfl
     [.wsOpen]).1⟩

/-- Claim C4, counterexample.  The claim says the transport is closed on
every terminal transition, including transport-level errors.  The
`error` handler never calls `ws.close()`: a buffer-mode session that
receives a transport error emits no `wsClose` action. -/
theorem c4_counterexample :
    Action.wsClose ∉ (run ⟨{}, "t", "x"⟩ [.wsOpen, .wsError "boom"]).2 := by
  decide

/-- Claim C4, amended: on `task-finished` and `task-failed` the session
closes the transport (and in file mode ends resp. destroys the file
handle); on a transport-level error the file handle is destroyed in
file mode, but the session itself emits no transport close — the errored
socket is left to the transport layer. -/
theorem c4_terminal_cleanup (sess : Session) (s : SState)
    (tid em : Option String) (m : String) :
    Action.wsClose ∈ (stepEvent sess s (.ctrl "task-finished" tid em)).2 ∧
    Action.wsClose ∈ (stepEvent sess s (.ctrl "task-failed" tid em)).2 ∧
    Action.wsClose ∉ (stepEvent sess s (.wsError m)).2 ∧
    (fileActive sess.cfg = true →
      Action.fileEnd ∈ (stepEvent sess s (.ctrl "task-finished" tid em)).2 ∧
      Action.fileDestroy (errMsgOf em) ∈
        (stepEvent sess s (.ctrl "task-failed" tid em)).2 ∧
      Action.fileDestroy m ∈ (stepEvent sess s (.wsError m)).2) := by
  refine ⟨?_, ?_, ?_, fun hfa => ⟨?_, ?_, ?_⟩⟩ <;>
    simp only [stepEvent, failActions] <;>
    split_ifs <;> simp_all

/-- Witness for the amended C4 at a concrete file-mode session. -/
theorem c4_witness :
    fileActive ({ outputType := some "file", output := some "/tmp/x.mp3" } :
      TtsOptions) = true ∧
    Action.wsClose ∈
      (stepEvent ⟨{ outputType := some "file", output := some "/tmp/x.mp3" },
        "t", "x"⟩ initState (.ctrl "task-finished" none none)).2 ∧
    Action.fileEnd ∈
      (stepEvent ⟨{ outputType := some "file", output := some "/tmp/x.mp3" },
        "t", "x"⟩ initState (.ctrl "task-finished" none none)).2 ∧
    Action.wsClose ∉
      (stepEvent ⟨{ outputType := some "file", output := some "/tmp/x.mp3" },
        "t", "x"⟩ initState (.wsError "boom")).2 :=
  ⟨rfl,
   (c4_terminal_cleanup ⟨{ outputType := some "file", output := some "/tmp/x.mp3" },
     "t", "x"⟩ initState none none "boom").1,
   ((c4_terminal_cleanup ⟨{ outputType := some "file", output := some "/tmp/x.mp3" },
     "t", "x"⟩ initState none none "boom").2.2.2 rfl).1,
   (c4_terminal_cleanup ⟨{ outputType := some "file", output := some "/tmp/x.mp3" },
     "t", "x"⟩ initState none none "boom").2.2.1⟩

/-- Claim C5, counterexample.  The claim says the error message is taken
from the event's `error_message` field whenever the field is present,
with the generic fallback only for an absent field.  The code uses the
JS `||` operator, which also discards a present-but-empty message: on
`task-failed` with `error_message: ""` the session rejects with the
fallback text, not with the field's (empty) value. -/
theorem c5_counterexample :
    (stepEvent ⟨{}, "t", "x"⟩ initState (.ctrl "task-failed" none (some ""))).2 =
      [.logInfo, .wsClose, .logError, .reject "CosyVoice task failed"] ∧
    Action.reject "" ∉
      (stepEvent ⟨{}, "t", "x"⟩ initState (.ctrl "task-failed" none (some ""))).2 := by
  constructor
  · rfl
  · decide

/-- Claim C5, amended: on `task-failed` in buffer mode the session
closes the transport and rejects with exactly `errMsgOf error_message`,
which is the field's value when it is present and non-empty and the
generic fallback `"CosyVoice task failed"` when the field is absent or
empty (falsy). -/
theorem c5_task_failed_buffer (sess : Session)
    (hf : fileActive sess.cfg = false) (hs : streamOn sess.cfg = false)
    (s : SState) (tid em : Option String) :
    (stepEvent sess s (.ctrl "task-failed" tid em)).2 =
      [.logInfo, .wsClose, .logError, .reject (errMsgOf em)] ∧
    (∀ msg : String, msg ≠ "" → errMsgOf (some msg) = msg) ∧
    errMsgOf none = "CosyVoice task failed" ∧
    errMsgOf (some "") = "CosyVoice task failed" := by
  refine ⟨?_, ?_, rfl, rfl⟩
  · simp only [stepEvent, failActions, hf, hs]
    simp
  · intro msg h
    simp [errMsgOf, h]

/-- Witness for the amended C5: Scenario D, a buffer-mode session whose
`task-failed` event carries `error_message: "quota exceeded"`. -/
theorem c5_witness :
    fileActive ({} : TtsOptions) = false ∧
    streamOn ({} : TtsOptions) = false ∧
    (stepEvent ⟨{}, "t", "x"⟩ initState
        (.ctrl "task-failed" none (some "quota exceeded"))).2 =
      [.logInfo, .wsClose, .logError, .reject "quota exceeded"] :=
  ⟨rfl, rfl,
   (c5_task_failed_buffer ⟨{}, "t", "x"⟩ rfl rfl initState none
     (some "quota exceeded")).1⟩

/-- Claim C6: for every volume in `[0,1]`, the volume sent in the
run-task command is `round(volume*100)` clamped to `[0,100]`, except
that a result of `0` is replaced by `50`.  The code clamps before
rounding; on `[0,1]` both clamps are the identity, so the two agree. -/
theorem c6_volume_mapping (v : ℚ) (h0 : 0 ≤ v) (h1 : v ≤ 1) :
    cosyVolume v =
      (if min 100 (max 0 (round (v * 100))) = 0 then 50
       else min 100 (max 0 (round (v * 100)))) := by
  have hv0 : (0 : ℚ) ≤ v * 100 := mul_nonneg h0 (by norm_num)
  have hv1 : v * 100 ≤ 100 := by linarith
  have hr0 : (0 : ℤ) ≤ round (v * 100) := by
    rw [round_eq]
    exact Int.le_floor.mpr (by push_cast; linarith)
  have hr100 : round (v * 100) ≤ 100 := by
    rw [round_eq]
    have h : (⌊v * 100 + 1 / 2⌋ : ℤ) < 101 := Int.floor_lt.mpr (by push_cast; linarith)
    omega
  have hmax2 : max (0 : ℤ) (round (v * 100)) = round (v * 100) :=
    max_eq_right hr0
  rw [cosyVolume, min_eq_right hv1, max_eq_right hv0, hmax2,
    min_eq_right hr100]

/-- Witness for C6 at `volume = 0.73`, which maps to `73`. -/
theorem c6_witness :
    (0 : ℚ) ≤ 73 / 100 ∧ (73 / 100 : ℚ) ≤ 1 ∧
    cosyVolume (73 / 100) =
      (if min 100 (max 0 (round ((73 / 100 : ℚ) * 100))) = 0 then 50
       else min 100 (max 0 (round ((73 / 100 : ℚ) * 100)))) :=
  ⟨by norm_num, by norm_num,
   c6_volume_mapping (73 / 100) (by norm_num) (by norm_num)⟩

/-- Claim C7: the run-task command does not depend on the caller's
pitch — two sessions differing only in `options.pitch` send identical
run-task commands on open, and the pitch parameter sent is the fixed
neutral value `1`. -/
theorem c7_pitch_ignored (o : TtsOptions) (p q : Option ℚ)
    (taskId text : String) (s : SState) :
    stepEvent ⟨{ o with pitch := p }, taskId, text⟩ s .wsOpen =
      stepEvent ⟨{ o with pitch := q }, taskId, text⟩ s .wsOpen ∧
    (runTaskPayload { o with pitch := p }).parameters.pitch = cosyPitch ∧
    cosyPitch = 1 :=
  ⟨rfl, rfl, rfl⟩

/-- Claim C8: a malformed text frame is logged and swallowed — it leaves
the closure state unchanged, performs no action other than the error
log, and every event before and after it is processed exactly as it
would have been without it. -/
theorem c8_malformed_swallowed (sess : Session) (s : SState)
    (pre post : List WsEvent) :
    processEvents sess s (pre ++ WsEvent.malformed :: post) =
      ((processEvents sess (processEvents sess s pre).1 post).1,
       (processEvents sess s pre).2 ++
         Action.logError ::
           (processEvents sess (processEvents sess s pre).1 post).2) := by
  rw [processEvents_append]
  simp [processEvents, stepEvent]

/-- Claim C9: a binary frame arriving after any event prefix — in
particular before `task-started` — is routed to the active sink with no
phase gating: its actions do not depend on the session state, and it is
written to the file in file mode, pushed to the stream in stream mode,
and appended to the chunk accumulator otherwise. -/
theorem c9_binary_no_phase_gating (sess : Session) (s : SState)
    (pre : List WsEvent) (c : Chunk) :
    (processEvents sess s (pre ++ [WsEvent.binary c])).2 =
      (processEvents sess s pre).2 ++ (stepEvent sess s (.binary c)).2 ∧
    (fileActive sess.cfg = true →
      (stepEvent sess s (.binary c)).2 = [.fileWrite c]) ∧
    (fileActive sess.cfg = false → streamOn sess.cfg = true →
      (stepEvent sess s (.binary c)).2 = [.streamWrite c]) ∧
    (fileActive sess.cfg = false → streamOn sess.cfg = false →
      (stepEvent sess s (.binary c)).2 = [] ∧
      (processEvents sess s (pre ++ [WsEvent.binary c])).1.audioChunks =
        (processEvents sess s pre).1.audioChunks ++ [c]) := by
  have hstep : ∀ s' : SState,
      (stepEvent sess s' (.binary c)).2 = (stepEvent sess s (.binary c)).2 := by
    intro s'
    simp only [stepEvent]
    split_ifs <;> rfl
  refine ⟨?_, fun hfa => ?_, fun hfa hs => ?_, fun hfa hs => ⟨?_, ?_⟩⟩
  · rw [processEvents_append]
    simp [processEvents, hstep]
  · simp [stepEvent, hfa]
  · simp [stepEvent, hfa, hs]
  · simp [stepEvent, hfa, hs]
  · rw [processEvents_append]
    simp [processEvents, stepEvent, hfa, hs]

/-- Witness for C9 at a concrete buffer-mode session, with the binary
chunk arriving right after open and before any `task-started`. -/
theorem c9_witness :
    fileActive ({} : TtsOptions) = false ∧
    streamOn ({} : TtsOptions) = false ∧
    ((stepEvent ⟨{}, "t", "x"⟩ initState (.binary [7])).2 = [] ∧
     (processEvents ⟨{}, "t", "x"⟩ initState
         ([WsEvent.wsOpen] ++ [WsEvent.binary [7]])).1.audioChunks =
       (processEvents ⟨{}, "t", "x"⟩ initState
         [WsEvent.wsOpen]).1.audioChunks ++ [[7]]) :=
  ⟨rfl, rfl,
   (c9_binary_no_phase_gating ⟨{}, "t", "x"⟩ initState [WsEvent.wsOpen]
     [7]).2.2.2 rfl rfl⟩

/-- Claim C10: when `outputType` is `'file'` but `output` is absent (or
empty, hence falsy), no file handle is opened and no file action ever
occurs; the session behaves as a buffer session (resolving with the
concatenated chunks, not the empty buffer) or, when `stream` is true, as
a stream session resolving early with the live stream. -/
theorem c10_file_mode_without_output (sess : Session)
    (ho : sess.cfg.outputType = some "file")
    (ht : truthyStr sess.cfg.output = false) :
    fileActive sess.cfg = false ∧
    (∀ events, ∀ a ∈ (run sess events).2, isFileAction a = false) ∧
    (streamOn sess.cfg = false → ∀ (a b : Chunk) (tid : Option String),
      (run sess [.wsOpen, .binary a, .binary b,
          .ctrl "task-finished" tid none]).2 =
        [.logInfo,
         .send (.runTask (mkHeader "run-task" sess.taskId)
           (runTaskPayload sess.cfg)),
         .logInfo, .logInfo, .wsClose, .resolveBuffer (a ++ b)]) ∧
    (streamOn sess.cfg = true → initActions sess = [Action.resolveStream]) := by
  have hfa : fileActive sess.cfg = false := by
    simp [fileActive, ht]
  refine ⟨hfa, ?_, fun hs a b tid => ?_, fun hs => ?_⟩
  · intro events a ha
    simp only [run, List.mem_append] at ha
    rcases ha with h | h
    · simp only [initActions, hfa] at h
      split_ifs at h <;> simp_all [isFileAction]
    · exact processEvents_no_fileAction sess hfa initState events a h
  · simp [run, initActions, processEvents, stepEvent, initState, hfa, hs]
  · simp [initActions, hfa, hs]

/-- Witness for C10: concrete session with `outputType: 'file'` and no
`output`; it buffers and resolves with the concatenation of the chunks. -/
theorem c10_witness :
    ({ outputType := some "file" } : TtsOptions).outputType = some "file" ∧
    truthyStr ({ outputType := some "file" } : TtsOptions).output = false ∧
    fileActive ({ outputType := some "file" } : TtsOptions) = false ∧
    (run ⟨{ outputType := some "file" }, "t", "x"⟩
        [.wsOpen, .binary [1], .binary [2],
         .ctrl "task-finished" none none]).2 =
      [.logInfo,
       .send (.runTask (mkHeader "run-task" "t")
         (runTaskPayload { outputType := some "file" })),
       .logInfo, .logInfo, .wsClose, .resolveBuffer ([1] ++ [2])] :=
  ⟨rfl, rfl,
   (c10_file_mode_without_output ⟨{ outputType := some "file" }, "t", "x"⟩
     rfl rfl).1,
   (c10_file_mode_without_output ⟨{ outputType := some "file" }, "t", "x"⟩
     rfl rfl).2.2.1 rfl [1] [2] none⟩

end CosyVoice
